import Mathlib

/-!
Shallow embedding of the orchestration core of AssFontSubset_GUI
(`src/main.py`): path cleaning and validation (`clean_path`,
`validate_dir_path`), port validation (`validate_port`), the port
sidecar file (`get_port_from_file`, `save_port_to_file`), configuration
load and save over parsed JSON values (`load_config_from`,
`save_config`), external-command assembly (`run_assfontsubset`, modelled
up to the process-spawn boundary), and the port-probing launcher loop
(`safe_launch`).

File-system facts (existence and kind of paths, `Path.resolve`,
write failures) are abstracted into an explicit `FS` record, and the
JSON layer is modelled on parsed values (`JVal`), with POSIX path
syntax for `os.path.dirname` and `os.path.join` and ASCII case
folding for `str.lower`, so that every definition is executable.
-/

namespace AFS

/-- The single-quote character (code point 39). -/
def squote : Char := Char.ofNat 39

/-- The double-quote character (code point 34). -/
def dquote : Char := Char.ofNat 34

/-- Whitespace characters stripped by Python `str.strip()` (ASCII part):
space, tab, LF, VT, FF, CR. -/
def isPySpace (c : Char) : Bool :=
  c == ' ' || c == Char.ofNat 9 || c == Char.ofNat 10 ||
  c == Char.ofNat 11 || c == Char.ofNat 12 || c == Char.ofNat 13

/-- The two quote characters matched by the regex `[\x27\x22]` in `clean_path`. -/
def isPyQuote (c : Char) : Bool := c == squote || c == dquote

/-- Python `str.strip()` on a character list: drop whitespace from both ends. -/
def pyStrip (l : List Char) : List Char :=
  ((l.dropWhile isPySpace).reverse.dropWhile isPySpace).reverse

/-- Python `str.strip()` on strings. -/
def pyStripStr (s : String) : String := String.mk (pyStrip s.data)

/-- Drop one leading quote character if present (the `^[\x27\x22]` part of
the `clean_path` regex). -/
def dropLeadQuote (l : List Char) : List Char :=
  match l with
  | [] => []
  | c :: rest => if isPyQuote c then rest else c :: rest

/-- Effect of `re.sub(r'^[\x27\x22]|[\x27\x22]$', '', s)`: remove one leading
quote character (if any) and then one trailing quote character (if any);
the two need not match each other. -/
def stripQuotes (l : List Char) : List Char :=
  ((dropLeadQuote l).reverse |> dropLeadQuote).reverse

/-- Body of `clean_path` on a character list: Python returns `""` for a falsy
(empty) input, otherwise strips whitespace and then one layer of quotes. -/
def cleanList (l : List Char) : List Char :=
  if l = [] then [] else stripQuotes (pyStrip l)

/-- The source's `clean_path`: `re.sub(r'^[\x27\x22]|[\x27\x22]$', '', s.strip())
if s else ""`. -/
def clean_path (s : String) : String := String.mk (cleanList s.data)

/-- Python `str.endswith` (a pure suffix test). -/
def pyEndsWith (s suffix : String) : Bool := suffix.data.isSuffixOf s.data

/-- Python `str.lower` restricted to ASCII case folding. -/
def pyLower (s : String) : String := String.mk (s.data.map Char.toLower)

/-- Abstraction of the file system visible to the program: which paths are
regular files, which are directories, how `Path.resolve` maps a path to its
absolute form, and whether writing a given path fails (with which message). -/
structure FS where
  isFile : String → Bool
  isDir : String → Bool
  resolve : String → String
  writeError : String → Option String

/-- Body of `validate_dir_path` after `clean_path` has been applied. The
second component carries the resolved path on success and the (non-empty)
error message on failure, exactly as the source returns it. -/
def validate_dir_core (fs : FS) (c : String) : Bool × String :=
  if c = "" then (false, "路径不能为空")
  else if fs.isDir c then (true, fs.resolve c)
  else (false, "路径不是有效目录")

/-- The source's `validate_dir_path` on a string argument. -/
def validate_dir_path (fs : FS) (path_str : String) : Bool × String :=
  validate_dir_core fs (clean_path path_str)

/-- Numeric value of an ASCII digit character. -/
def digitVal (c : Char) : Nat := c.toNat - 48

/-- One accumulation step of decimal parsing. -/
def digitStep (a : Nat) (c : Char) : Nat := a * 10 + digitVal c

/-- Digit-run parser for Python `int()`: digits with single underscores
allowed between digits (no leading, trailing, or doubled underscore). -/
def pyDigitsGo (acc : Nat) : List Char → Option Nat
  | [] => some acc
  | c :: cs =>
    if c == '_' then
      match cs with
      | [] => none
      | d :: ds => if d.isDigit then pyDigitsGo (digitStep acc d) ds else none
    else if c.isDigit then pyDigitsGo (digitStep acc c) cs
    else none

/-- Parse a non-empty run of ASCII digits (with internal underscores). -/
def pyDigits : List Char → Option Nat
  | [] => none
  | c :: cs => if c.isDigit then pyDigitsGo (digitVal c) cs else none

/-- Python `int(s)` for ASCII decimal strings: optional surrounding
whitespace, an optional sign, then a digit run; `none` models `ValueError`. -/
def pyParseInt (s : String) : Option Int :=
  match pyStrip s.data with
  | [] => none
  | c :: rest =>
    if c == '+' then (pyDigits rest).map (fun n => (n : Int))
    else if c == '-' then (pyDigits rest).map (fun n => -(n : Int))
    else (pyDigits (c :: rest)).map (fun n => (n : Int))

/-- The source's `validate_port`: parse as an integer and accept exactly the
range [1024, 65535]; any parse failure or out-of-range value yields
`(false, none)` without raising. -/
def validate_port (port_str : String) : Bool × Option Int :=
  match pyParseInt port_str with
  | some port => if 1024 ≤ port ∧ port ≤ 65535 then (true, some port) else (false, none)
  | none => (false, none)

/-- Fuel-indexed little-endian decimal digit list of a natural number. -/
def natDecAux : Nat → Nat → List Char
  | 0, _ => []
  | fuel + 1, n =>
    if n = 0 then [] else Char.ofNat (48 + n % 10) :: natDecAux fuel (n / 10)

/-- Canonical decimal representation of a natural number (Python `str(n)`). -/
def natDec (n : Nat) : List Char :=
  if n = 0 then [Char.ofNat 48] else (natDecAux n n).reverse

/-- Canonical decimal representation of an integer (Python `str(p)`). -/
def intDec (p : Int) : List Char :=
  if p < 0 then '-' :: natDec (-p).toNat else natDec p.toNat

/-- The source's `save_port_to_file`, up to the write effect: it validates
`str(port)` with `validate_port` and only writes when that succeeds; the
result is whether the sidecar file was (re)written. -/
def save_port_to_file (port : Int) : Bool :=
  (validate_port (String.mk (intDec port))).1

/-- The source's `get_port_from_file`: `none` when the sidecar file is
absent; otherwise strip the content and return the port only if it
validates. -/
def get_port_from_file (content : Option String) : Option Int :=
  match content with
  | none => none
  | some txt =>
    let r := validate_port (pyStripStr txt)
    if r.1 then r.2 else none

/-- The hard-coded default server port. -/
def DEFAULT_PORT : Int := 7888

/-- Parsed JSON values (numbers restricted to integers, which covers every
value the configuration schema uses). -/
inductive JVal where
  | jnull : JVal
  | jbool : Bool → JVal
  | jnum : Int → JVal
  | jstr : String → JVal
  | jarr : List JVal → JVal
  | jobj : List (String × JVal) → JVal

/-- Whether a `JVal` is a JSON object. -/
def JVal.isObj : JVal → Bool
  | .jobj _ => true
  | _ => false

/-- Whether a `JVal` is a JSON array. -/
def JVal.isArr : JVal → Bool
  | .jarr _ => true
  | _ => false

/-- Python truthiness of a parsed JSON value. -/
def jTruthy : JVal → Bool
  | .jnull => false
  | .jbool b => b
  | .jnum n => !(n == 0)
  | .jstr s => !(s == "")
  | .jarr l => !l.isEmpty
  | .jobj l => !l.isEmpty

/-- Applying `clean_path` to an arbitrary JSON value, as `load_config` does:
strings are cleaned, falsy values give `""`, and a truthy non-string raises
`AttributeError` (`.strip()` does not exist), modelled as `Except.error`. -/
def clean_path_j : JVal → Except String String
  | .jstr s => .ok (clean_path s)
  | v => if jTruthy v then .error "AttributeError" else .ok ""

/-- `validate_dir_path` applied to an arbitrary JSON value. -/
def validate_dir_path_j (fs : FS) (v : JVal) : Except String (Bool × String) :=
  (clean_path_j v).map (validate_dir_core fs)

/-- The configuration document: one field per key of `DEFAULT_CONFIG`.
Fields hold raw `JVal`s because `load_config` copies several keys through
without validation. -/
structure ConfigDoc where
  input_paths : JVal
  output_dir : JVal
  font_dir : JVal
  subset_backend : JVal
  bin_path : JVal
  source_han_ellipsis : JVal
  debug : JVal
  server_port : JVal

/-- The source's `DEFAULT_CONFIG` dictionary. -/
def DEFAULT_CONFIG : ConfigDoc :=
  { input_paths := .jarr []
    output_dir := .jstr ""
    font_dir := .jstr ""
    subset_backend := .jstr "PyFontTools"
    bin_path := .jstr ""
    source_han_ellipsis := .jbool true
    debug := .jbool false
    server_port := .jnum 7888 }

/-- The recognized configuration keys (`key in valid_config`). -/
def recognizedKeys : List String :=
  ["input_paths", "output_dir", "font_dir", "subset_backend", "bin_path",
   "source_han_ellipsis", "debug", "server_port"]

/-- The source's `key.endswith(('_dir', '_path', 'output_dir'))` test. -/
def pathLikeKey (key : String) : Bool :=
  pyEndsWith key "_dir" || pyEndsWith key "_path" || pyEndsWith key "output_dir"

/-- Assignment `valid_config[key] = v` for a recognized key. -/
def setField (doc : ConfigDoc) (key : String) (v : JVal) : ConfigDoc :=
  if key = "input_paths" then { doc with input_paths := v }
  else if key = "output_dir" then { doc with output_dir := v }
  else if key = "font_dir" then { doc with font_dir := v }
  else if key = "subset_backend" then { doc with subset_backend := v }
  else if key = "bin_path" then { doc with bin_path := v }
  else if key = "source_han_ellipsis" then { doc with source_han_ellipsis := v }
  else if key = "debug" then { doc with debug := v }
  else if key = "server_port" then { doc with server_port := v }
  else doc

/-- One iteration of `load_config`'s merge loop for the pair `(key, value)`.
Mirrors the source exactly: `output_dir` is stored verbatim (with `null`
becoming `""`); other `_dir`/`_path` keys store `validate_dir_path(value)[1]`
whenever that string is non-empty — which is always, because the second
component is the resolved path on success and the error message on failure;
a list-valued `input_paths` keeps `validate_dir_path(p)[1]` for each element
under the same always-true non-emptiness filter; everything else is copied
verbatim. Exceptions from `clean_path` on truthy non-strings propagate. -/
def applyKey (fs : FS) (doc : ConfigDoc) (key : String) (value : JVal) :
    Except String ConfigDoc :=
  if recognizedKeys.contains key then
    if pathLikeKey key then
      if key = "output_dir" then
        .ok (setField doc key (match value with | .jnull => .jstr "" | v => v))
      else
        match validate_dir_path_j fs value with
        | .error e => .error e
        | .ok r => if r.2 = "" then .ok doc else .ok (setField doc key (.jstr r.2))
    else if key = "input_paths" then
      match value with
      | .jarr items =>
        match items.mapM (validate_dir_path_j fs) with
        | .error e => .error e
        | .ok rs =>
          .ok (setField doc key
            (.jarr ((rs.filter (fun r => !(r.2 == ""))).map (fun r => JVal.jstr r.2))))
      | v => .ok (setField doc key v)
    else .ok (setField doc key value)
  else .ok doc

/-- The whole merge loop `for key, value in config.items()` starting from
the defaults. -/
def applyAll (fs : FS) (kvs : List (String × JVal)) : Except String ConfigDoc :=
  kvs.foldlM (fun doc kv => applyKey fs doc kv.1 kv.2) DEFAULT_CONFIG

/-- The source's `load_config`, modelled from the point where the target file
has been located: `none` means the file is absent (all defaults, no error);
`some (.error e)` means reading or JSON parsing raised (all defaults plus a
wrapped message); `some (.ok v)` is a successfully parsed value — merged if
it is an object, silently discarded (defaults, NO error) otherwise. -/
def load_config_from (fs : FS) (file : Option (Except String JVal)) :
    ConfigDoc × Option String :=
  match file with
  | none => (DEFAULT_CONFIG, none)
  | some (.error e) => (DEFAULT_CONFIG, some ("加载配置文件出错: " ++ e))
  | some (.ok v) =>
    match v with
    | .jobj kvs =>
      match applyAll fs kvs with
      | .ok doc => (doc, none)
      | .error e => (DEFAULT_CONFIG, some ("加载配置文件出错: " ++ e))
    | _ => (DEFAULT_CONFIG, none)

/-- JSON encoding of a document, in the key order `handle_save_config`
builds it with; `json.dump`/`json.load` round-trip this value exactly. -/
def docToJVal (d : ConfigDoc) : JVal :=
  .jobj [("input_paths", d.input_paths), ("output_dir", d.output_dir),
         ("font_dir", d.font_dir), ("subset_backend", d.subset_backend),
         ("bin_path", d.bin_path), ("source_han_ellipsis", d.source_han_ellipsis),
         ("debug", d.debug), ("server_port", d.server_port)]

/-- The source's `generate_default_filename`, parameterized by the formatted
timestamp `now` (`%Y%m%d_%H%M%S`). -/
def generate_default_filename (now : String) : String :=
  "assfont_config_" ++ now ++ ".json"

/-- Filename resolution in `save_config`: blank names get the synthesized
default; otherwise `.json` is appended when missing (case-insensitively). -/
def final_filename (now filename : String) : String :=
  if pyStripStr filename = "" then generate_default_filename now
  else if pyEndsWith (pyLower filename) ".json" then filename
  else filename ++ ".json"

/-- Whether a path string begins with a separator (POSIX absolute). -/
def startsWithSlash (s : String) : Bool :=
  match s.data with
  | c :: _ => c == '/'
  | [] => false

/-- Whether a path string ends with a separator. -/
def endsWithSlash (s : String) : Bool :=
  match s.data.getLast? with
  | some c => c == '/'
  | none => false

/-- POSIX `os.path.join` for two components. -/
def pyJoin (a b : String) : String :=
  if startsWithSlash b then b
  else if a = "" then b
  else if endsWithSlash a then a ++ b
  else a ++ "/" ++ b

/-- POSIX `os.path.dirname`: everything up to the last separator, with
trailing separators stripped unless the result is all separators. -/
def pyDirname (s : String) : String :=
  let l := s.data
  let head := (l.reverse.dropWhile (fun c => !(c == '/'))).reverse
  if head.isEmpty then ""
  else if head.all (fun c => c == '/') then String.mk head
  else String.mk ((head.reverse.dropWhile (fun c => c == '/')).reverse)

/-- Result of `save_config`: the returned pair plus the write effect (the
final path and the serialized document), `none` when nothing was written. -/
structure SaveOutcome where
  ok : Bool
  msg : String
  written : Option (String × JVal)

/-- The source's `save_config`: validate the directory (aborting with the
validation error), resolve the filename, and write the document, wrapping
any I/O failure message. Directory creation (`os.makedirs`) is an effect
subsumed in the `writeError` abstraction. -/
def save_config (fs : FS) (now : String) (save_dir filename : String)
    (config : ConfigDoc) : SaveOutcome :=
  let v := validate_dir_path fs save_dir
  if v.1 then
    let fn := final_filename now filename
    let save_path := pyJoin v.2 fn
    match fs.writeError save_path with
    | some e => ⟨false, "保存配置文件出错: " ++ e, none⟩
    | none => ⟨true, "配置已成功保存到: " ++ save_path, some (save_path, docToJVal config)⟩
  else ⟨false, v.2, none⟩

/-- Input filtering in `run_assfontsubset`: clean each supplied path and
keep those that end in `.ass` (case-insensitively) and are regular files. -/
def valid_inputs (fs : FS) (input_paths : List String) : List String :=
  (input_paths.map clean_path).filter
    (fun p => pyEndsWith (pyLower p) ".ass" && fs.isFile p)

/-- Output directory resolution in `run_assfontsubset`: a blank
`output_dir` becomes the `output` subdirectory of the first valid input's
containing directory. -/
def resolved_output_dir (first_input output_dir : String) : String :=
  if pyStripStr output_dir = "" then pyJoin (pyDirname first_input) "output"
  else output_dir

/-- The source's `run_assfontsubset` up to the process-spawn boundary:
`Except.error` is the early "no valid input files" report (no process is
spawned); `Except.ok (dir, cmd)` carries the directory passed to
`os.makedirs(..., exist_ok=True)` and the argument vector handed to
`subprocess.run`. -/
def run_assfontsubset (fs : FS) (input_paths : List String)
    (output_dir font_dir subset_backend bin_path : String)
    (source_han_ellipsis debug : Bool) : Except String (String × List String) :=
  match valid_inputs fs input_paths with
  | [] => .error "错误：没有有效的ASS文件路径"
  | first :: rest =>
    let final := resolved_output_dir first output_dir
    let cmd := ["./AssFontSubset.Console"] ++ (first :: rest)
      ++ (if final = "" then [] else ["--output", final])
      ++ (if font_dir = "" then []
          else if (validate_dir_path fs font_dir).1 then
            ["--fonts", (validate_dir_path fs font_dir).2]
          else [])
      ++ (if subset_backend = "PyFontTools" then [] else ["--subset-backend", subset_backend])
      ++ (if bin_path = "" then []
          else if pyStripStr bin_path = "" then []
          else if (validate_dir_path fs bin_path).1 then
            ["--bin-path", (validate_dir_path fs bin_path).2]
          else [])
      ++ (if source_han_ellipsis then [] else ["--no-source-han-ellipsis"])
      ++ (if debug then ["--debug"] else [])
    .ok (final, cmd)

/-- Observable events of `safe_launch`, in program order. -/
inductive LEv where
  | probeFail : Int → LEv
  | launchLocal : Int → LEv
  | savePort : Int → LEv
  | openBrowser : Int → LEv
  | launchShare : LEv

/-- The `for attempt in range(max_attempts)` loop of `safe_launch`: probe
`preferred + attempt`; on probe success launch locally, persist the port,
open the browser and return the port; on the last failed attempt fall back
to share mode with no persisted port. -/
def safe_launch_loop (busy : Int → Bool) (preferred : Int) (M : Nat) (a : Nat) :
    List LEv × Option Int :=
  if h : a < M then
    let port : Int := preferred + (a : Int)
    if busy port then
      if a = M - 1 then ([LEv.probeFail port, LEv.launchShare], none)
      else
        let rest := safe_launch_loop busy preferred M (a + 1)
        (LEv.probeFail port :: rest.1, rest.2)
    else ([LEv.launchLocal port, LEv.savePort port, LEv.openBrowser port], some port)
  else ([], none)
termination_by M - a
decreasing_by omega

/-- The source's `safe_launch`: the preferred port comes from the sidecar
file (falling back to `DEFAULT_PORT`), then the probe loop runs. -/
def safe_launch (busy : Int → Bool) (portFileContent : Option String) (M : Nat) :
    List LEv × Option Int :=
  safe_launch_loop busy ((get_port_from_file portFileContent).getD DEFAULT_PORT) M 0

/-- Sidecar file content after a trace of launcher events: each `savePort p`
event rewrites it only when `save_port_to_file` validates `p`. -/
def sidecarAfter (init : Option Int) (t : List LEv) : Option Int :=
  t.foldl
    (fun st e =>
      match e with
      | LEv.savePort p => if save_port_to_file p then some p else st
      | _ => st)
    init

/-- A file system with no files and no directories. -/
def fs0 : FS :=
  { isFile := fun _ => false, isDir := fun _ => false,
    resolve := fun s => s, writeError := fun _ => none }

/-- A file system in which every path is a directory that resolves to
itself and writes succeed. -/
def fsD : FS :=
  { isFile := fun _ => false, isDir := fun _ => true,
    resolve := fun s => s, writeError := fun _ => none }

/-- A file system holding exactly the subtitle file `/a/x.ass` and the
directory `/f`. -/
def fs1 : FS :=
  { isFile := fun s => s == "/a/x.ass", isDir := fun s => s == "/f",
    resolve := fun s => s, writeError := fun _ => none }

/-- Port occupancy in which exactly port 7888 is already bound. -/
def busyEx : Int → Bool := fun p => p == 7888

/-- Both ends of a content list are neither whitespace nor quote characters
(vacuously true for the empty list). -/
def bareEnds (t : List Char) : Bool :=
  (match t.head? with
   | none => true
   | some c => !isPySpace c && !isPyQuote c) &&
  (match t.getLast? with
   | none => true
   | some c => !isPySpace c && !isPyQuote c)

/-- Dropping while a predicate holds ignores a prefix on which it holds
everywhere. -/
theorem dropWhile_append_all {p : Char → Bool} (w l : List Char)
    (h : ∀ c ∈ w, p c = true) : (w ++ l).dropWhile p = l.dropWhile p := by
  induction w with
  | nil => rfl
  | cons a w ih =>
    rw [List.cons_append, List.dropWhile_cons_of_pos (h a (by simp))]
    exact ih fun c hc => h c (by simp [hc])

/-- Dropping while a predicate holds empties a list on which it holds
everywhere. -/
theorem dropWhile_nil_all {p : Char → Bool} (l : List Char)
    (h : ∀ c ∈ l, p c = true) : l.dropWhile p = [] := by
  induction l with
  | nil => rfl
  | cons a l ih =>
    rw [List.dropWhile_cons_of_pos (h a (by simp))]
    exact ih fun c hc => h c (by simp [hc])

/-- Quote characters are not whitespace. -/
theorem quote_not_space {q : Char} (hq : isPyQuote q = true) : isPySpace q = false := by
  simp only [isPyQuote, Bool.or_eq_true, beq_iff_eq] at hq
  rcases hq with h | h <;> subst h <;> decide

/-- Stripping removes exactly an all-whitespace wrapping around a middle
list whose ends are not whitespace. -/
theorem pyStrip_wrap (w₁ w₂ m : List Char)
    (h1 : ∀ c ∈ w₁, isPySpace c = true) (h2 : ∀ c ∈ w₂, isPySpace c = true)
    (hm : m ≠ [])
    (hh : ∀ c, m.head? = some c → isPySpace c = false)
    (hl : ∀ c, m.getLast? = some c → isPySpace c = false) :
    pyStrip (w₁ ++ m ++ w₂) = m := by
  obtain ⟨a, m', rfl⟩ := List.exists_cons_of_ne_nil hm
  have ha : isPySpace a = false := hh a rfl
  unfold pyStrip
  rw [List.append_assoc, dropWhile_append_all w₁ _ h1]
  rw [show (a :: m') ++ w₂ = a :: (m' ++ w₂) from rfl]
  rw [List.dropWhile_cons_of_neg (by simp [ha])]
  rw [show a :: (m' ++ w₂) = (a :: m') ++ w₂ from rfl]
  rw [List.reverse_append]
  rw [dropWhile_append_all w₂.reverse _ fun c hc => h2 c (List.mem_reverse.mp hc)]
  obtain ⟨b, r, hr⟩ := List.exists_cons_of_ne_nil (show (a :: m').reverse ≠ [] by simp)
  have hb : isPySpace b = false := by
    apply hl
    rw [← List.head?_reverse, hr]
    rfl
  rw [hr, List.dropWhile_cons_of_neg (by simp [hb]), ← hr, List.reverse_reverse]

/-- Stripping an all-whitespace list yields the empty list. -/
theorem pyStrip_all_space (l : List Char) (h : ∀ c ∈ l, isPySpace c = true) :
    pyStrip l = [] := by
  unfold pyStrip
  rw [dropWhile_nil_all l h]
  rfl

/-- Stripping is the identity on a list whose ends are not whitespace. -/
theorem pyStrip_bare (t : List Char)
    (hh : ∀ c, t.head? = some c → isPySpace c = false)
    (hl : ∀ c, t.getLast? = some c → isPySpace c = false) : pyStrip t = t := by
  cases t with
  | nil => rfl
  | cons a m =>
    have := pyStrip_wrap [] [] (a :: m) (by simp) (by simp) (by simp) hh hl
    simpa using this

/-- A leading quote character is removed. -/
theorem dropLeadQuote_pos {c : Char} (l : List Char) (h : isPyQuote c = true) :
    dropLeadQuote (c :: l) = l := by simp [dropLeadQuote, h]

/-- A non-quote head is kept. -/
theorem dropLeadQuote_neg {c : Char} (l : List Char) (h : isPyQuote c = false) :
    dropLeadQuote (c :: l) = c :: l := by simp [dropLeadQuote, h]

/-- The quote-substitution removes exactly one wrapping quote pair,
whatever the content between the quotes is. -/
theorem stripQuotes_wrap (q : Char) (t : List Char) (hq : isPyQuote q = true) :
    stripQuotes (q :: (t ++ [q])) = t := by
  unfold stripQuotes
  rw [dropLeadQuote_pos _ hq]
  rw [show (t ++ [q]).reverse = q :: t.reverse by simp]
  rw [dropLeadQuote_pos _ hq, List.reverse_reverse]

/-- The quote-substitution is the identity on a list whose ends are not
quote characters. -/
theorem stripQuotes_bare (t : List Char)
    (hh : ∀ c, t.head? = some c → isPyQuote c = false)
    (hl : ∀ c, t.getLast? = some c → isPyQuote c = false) : stripQuotes t = t := by
  cases t with
  | nil => rfl
  | cons a m =>
    unfold stripQuotes
    rw [dropLeadQuote_neg _ (hh a rfl)]
    obtain ⟨b, r, hr⟩ := List.exists_cons_of_ne_nil (show (a :: m).reverse ≠ [] by simp)
    have hb : isPyQuote b = false := by
      apply hl
      rw [← List.head?_reverse, hr]
      rfl
    rw [hr, dropLeadQuote_neg _ hb, ← hr, List.reverse_reverse]

/-- Unpacking `bareEnds` at the head. -/
theorem bareEnds_head {t : List Char} (hb : bareEnds t = true) (c : Char)
    (hc : t.head? = some c) : isPySpace c = false ∧ isPyQuote c = false := by
  unfold bareEnds at hb
  rw [hc] at hb
  simp only [Bool.and_eq_true, Bool.not_eq_true'] at hb
  exact hb.1

/-- Unpacking `bareEnds` at the last element. -/
theorem bareEnds_last {t : List Char} (hb : bareEnds t = true) (c : Char)
    (hc : t.getLast? = some c) : isPySpace c = false ∧ isPyQuote c = false := by
  unfold bareEnds at hb
  rw [hc] at hb
  simp only [Bool.and_eq_true, Bool.not_eq_true'] at hb
  exact hb.2

/-- One `clean_path` application strips exactly a quote pair together with
any surrounding whitespace, for arbitrary content between the quotes. -/
theorem cleanList_wrap (q : Char) (w₁ w₂ t : List Char)
    (hq : isPyQuote q = true)
    (h1 : ∀ c ∈ w₁, isPySpace c = true) (h2 : ∀ c ∈ w₂, isPySpace c = true) :
    cleanList (w₁ ++ [q] ++ t ++ [q] ++ w₂) = t := by
  have hqs : isPySpace q = false := quote_not_space hq
  have key := pyStrip_wrap w₁ w₂ (q :: (t ++ [q])) h1 h2 (by simp)
    (fun c hc => by simp at hc; subst hc; exact hqs)
    (fun c hc => by
      rw [show q :: (t ++ [q]) = (q :: t) ++ [q] from rfl] at hc
      rw [← List.head?_reverse] at hc
      simp at hc
      subst hc
      exact hqs)
  have key2 : pyStrip (w₁ ++ [q] ++ t ++ [q] ++ w₂) = q :: (t ++ [q]) := by
    rw [← key]
    congr 1
    simp
  simp only [cleanList]
  rw [if_neg (by simp), key2, stripQuotes_wrap q t hq]

/-- A `bareEnds` list is a fixed point of `clean_path`. -/
theorem cleanList_bare (t : List Char) (ht : bareEnds t = true) : cleanList t = t := by
  cases t with
  | nil => rfl
  | cons a m =>
    simp only [cleanList]
    rw [if_neg (by simp)]
    rw [pyStrip_bare _ (fun c hc => (bareEnds_head ht c hc).1)
      (fun c hc => (bareEnds_last ht c hc).1)]
    exact stripQuotes_bare _ (fun c hc => (bareEnds_head ht c hc).2)
      (fun c hc => (bareEnds_last ht c hc).2)

/-- One `clean_path` application strips exactly a whitespace-only wrapping
when the content has bare ends. -/
theorem cleanList_ws_wrap (w₁ w₂ t : List Char)
    (h1 : ∀ c ∈ w₁, isPySpace c = true) (h2 : ∀ c ∈ w₂, isPySpace c = true)
    (ht : bareEnds t = true) :
    cleanList (w₁ ++ t ++ w₂) = t := by
  cases t with
  | nil =>
    by_cases hz : w₁ ++ ([] : List Char) ++ w₂ = []
    · simp only [cleanList]
      rw [if_pos hz]
    · simp only [cleanList]
      rw [if_neg hz]
      rw [pyStrip_all_space _ (by
        intro c hc
        simp only [List.append_nil, List.mem_append] at hc
        rcases hc with hc | hc
        · exact h1 c hc
        · exact h2 c hc)]
      rfl
  | cons a m =>
    simp only [cleanList]
    rw [if_neg (by simp)]
    rw [pyStrip_wrap w₁ w₂ (a :: m) h1 h2 (by simp)
      (fun c hc => (bareEnds_head ht c hc).1)
      (fun c hc => (bareEnds_last ht c hc).1)]
    exact stripQuotes_bare _ (fun c hc => (bareEnds_head ht c hc).2)
      (fun c hc => (bareEnds_last ht c hc).2)

/-- A head given by `head?` is a member. -/
theorem mem_of_head? {l : List Char} {c : Char} (h : l.head? = some c) : c ∈ l := by
  cases l with
  | nil => exact absurd h (by simp)
  | cons a r =>
    simp only [List.head?_cons, Option.some.injEq] at h
    subst h
    simp

/-- A last element given by `getLast?` is a member. -/
theorem mem_of_getLast? {l : List Char} {c : Char} (h : l.getLast? = some c) : c ∈ l := by
  rw [← List.head?_reverse] at h
  have : c ∈ l.reverse := mem_of_head? h
  exact List.mem_reverse.mp this

/-- ASCII codes 48 through 57 are digits with the expected values. -/
theorem digit_char_facts (k : Nat) (h : k < 10) :
    (Char.ofNat (48 + k)).isDigit = true ∧ digitVal (Char.ofNat (48 + k)) = k := by
  interval_cases k <;> exact ⟨by decide, by decide⟩

/-- The fuel-indexed digit list of zero is empty. -/
theorem natDecAux_zero (f : Nat) : natDecAux f 0 = [] := by cases f <;> rfl

/-- Every character produced by `natDecAux` is a digit. -/
theorem natDecAux_digits : ∀ f n, ∀ c ∈ natDecAux f n, c.isDigit = true := by
  intro f
  induction f with
  | zero => intro n c hc; simp [natDecAux] at hc
  | succ f ih =>
    intro n c hc
    by_cases hn : n = 0
    · subst hn; rw [natDecAux_zero] at hc; simp at hc
    · simp only [natDecAux, if_neg hn] at hc
      cases List.mem_cons.mp hc with
      | inl h => subst h; exact (digit_char_facts (n % 10) (Nat.mod_lt _ (by norm_num))).1
      | inr h => exact ih (n / 10) c h

/-- The little-endian digit list of `n` folds back to `n`. -/
theorem natDecAux_foldr : ∀ f n, n ≤ f →
    (natDecAux f n).foldr (fun c a => a * 10 + digitVal c) 0 = n := by
  intro f
  induction f with
  | zero =>
    intro n hn
    have : n = 0 := by omega
    subst this
    rfl
  | succ f ih =>
    intro n hn
    by_cases h0 : n = 0
    · subst h0; rw [natDecAux_zero]; rfl
    · simp only [natDecAux, if_neg h0, List.foldr_cons]
      have hdiv : n / 10 < n := Nat.div_lt_self (Nat.pos_of_ne_zero h0) (by norm_num)
      rw [ih (n / 10) (by omega)]
      rw [(digit_char_facts (n % 10) (Nat.mod_lt _ (by norm_num))).2]
      omega

/-- Distinct characters compare unequal under `==` when one is a digit and
the other is not. -/
theorem digit_beq_false {c d : Char} (h : c.isDigit = true) (hd : d.isDigit = false) :
    (c == d) = false := by
  cases hc : c == d
  · rfl
  · rw [eq_of_beq hc] at h
    rw [h] at hd
    exact absurd hd (by simp)

/-- Digit characters are not whitespace. -/
theorem digit_not_space2 {c : Char} (h : c.isDigit = true) : isPySpace c = false := by
  unfold isPySpace
  rw [@digit_beq_false c ' ' h (by decide), @digit_beq_false c (Char.ofNat 9) h (by decide),
    @digit_beq_false c (Char.ofNat 10) h (by decide),
    @digit_beq_false c (Char.ofNat 11) h (by decide),
    @digit_beq_false c (Char.ofNat 12) h (by decide),
    @digit_beq_false c (Char.ofNat 13) h (by decide)]
  rfl

/-- On an all-digit tail the digit-run parser is a fold. -/
theorem pyDigitsGo_all (cs : List Char) : ∀ acc, (∀ c ∈ cs, c.isDigit = true) →
    pyDigitsGo acc cs = some (cs.foldl digitStep acc) := by
  induction cs with
  | nil => intro acc h; rfl
  | cons c cs ih =>
    intro acc h
    have hc : c.isDigit = true := h c (by simp)
    have hne : (c == '_') = false := @digit_beq_false c '_' hc (by decide)
    have h2 := ih (digitStep acc c) fun d hd => h d (by simp [hd])
    rw [pyDigitsGo.eq_def]
    simpa [hne, hc] using h2

/-- On a non-empty all-digit list the digit-run parser is a fold from 0. -/
theorem pyDigits_all (l : List Char) (hne : l ≠ []) (h : ∀ c ∈ l, c.isDigit = true) :
    pyDigits l = some (l.foldl digitStep 0) := by
  obtain ⟨c, cs, rfl⟩ := List.exists_cons_of_ne_nil hne
  have hc := h c (by simp)
  simp only [pyDigits, hc, if_true, List.foldl_cons]
  rw [pyDigitsGo_all cs (digitVal c) fun d hd => h d (by simp [hd])]
  congr 2
  simp [digitStep]

/-- Parsing the canonical decimal digits of `n` yields `n`. -/
theorem pyDigits_natDec (n : Nat) : pyDigits (natDec n) = some n := by
  by_cases h0 : n = 0
  · subst h0; decide
  · have hdig : ∀ c ∈ natDec n, c.isDigit = true := by
      intro c hc
      simp only [natDec, if_neg h0] at hc
      exact natDecAux_digits n n c (List.mem_reverse.mp hc)
    have hne : natDec n ≠ [] := by
      simp only [natDec, if_neg h0, ne_eq, List.reverse_eq_nil_iff]
      cases n with
      | zero => exact absurd rfl h0
      | succ m => simp [natDecAux]
    rw [pyDigits_all _ hne hdig]
    congr 1
    simp only [natDec, if_neg h0]
    rw [List.foldl_reverse]
    exact natDecAux_foldr n n (le_refl n)

/-- Unfolding `pyParseInt` once the stripped character list is known. -/
theorem pyParseInt_eq_of_strip {s : String} {c : Char} {cs : List Char}
    (h : pyStrip s.data = c :: cs) :
    pyParseInt s =
      (if c == '+' then (pyDigits cs).map (fun n => (n : Int))
       else if c == '-' then (pyDigits cs).map (fun n => -(n : Int))
       else (pyDigits (c :: cs)).map (fun n => (n : Int))) := by
  unfold pyParseInt
  rw [h]

/-- Python `int` applied to the canonical decimal string of `n` gives `n`. -/
theorem pyParseInt_natDec (n : Nat) :
    pyParseInt (String.mk (natDec n)) = some (n : Int) := by
  have hdig : ∀ c ∈ natDec n, c.isDigit = true := by
    intro c hc
    by_cases h0 : n = 0
    · subst h0
      rw [show natDec 0 = [Char.ofNat 48] from rfl] at hc
      simp only [List.mem_singleton] at hc
      subst hc
      decide
    · simp only [natDec, if_neg h0] at hc
      exact natDecAux_digits n n c (List.mem_reverse.mp hc)
  have hne : natDec n ≠ [] := by
    by_cases h0 : n = 0
    · subst h0; simp [natDec]
    · simp only [natDec, if_neg h0, ne_eq, List.reverse_eq_nil_iff]
      cases n with
      | zero => exact absurd rfl h0
      | succ m => simp [natDecAux]
  obtain ⟨c, cs, hcc⟩ := List.exists_cons_of_ne_nil hne
  have hstrip : pyStrip (String.mk (natDec n)).data = c :: cs := by
    rw [show (String.mk (natDec n)).data = natDec n from rfl]
    rw [pyStrip_bare (natDec n)
      (fun d hd => digit_not_space2 (hdig d (mem_of_head? hd)))
      (fun d hd => digit_not_space2 (hdig d (mem_of_getLast? hd)))]
    exact hcc
  have hc : c.isDigit = true := hdig c (by rw [hcc]; simp)
  rw [pyParseInt_eq_of_strip hstrip]
  rw [@digit_beq_false c '+' hc (by decide), @digit_beq_false c '-' hc (by decide)]
  simp only [Bool.false_eq_true, if_false]
  rw [← hcc, pyDigits_natDec n]
  rfl

/-- Python `int` applied to the canonical decimal string of a non-negative
integer gives it back. -/
theorem pyParseInt_intDec (p : Int) (h : 0 ≤ p) :
    pyParseInt (String.mk (intDec p)) = some p := by
  unfold intDec
  rw [if_neg (by omega)]
  rw [pyParseInt_natDec p.toNat]
  congr 1
  omega

/-- `validate_port` accepts the canonical decimal string of every port in
the legal range. -/
theorem validate_port_intDec (p : Int) (h1 : 1024 ≤ p) (h2 : p ≤ 65535) :
    validate_port (String.mk (intDec p)) = (true, some p) := by
  unfold validate_port
  rw [pyParseInt_intDec p (by omega)]
  show (if 1024 ≤ p ∧ p ≤ 65535 then ((true : Bool), some p)
    else ((false : Bool), none)) = (true, some p)
  rw [if_pos ⟨h1, h2⟩]

/-- `save_port_to_file` persists every port in the legal range. -/
theorem save_port_valid (p : Int) (h1 : 1024 ≤ p) (h2 : p ≤ 65535) :
    save_port_to_file p = true := by
  unfold save_port_to_file
  rw [validate_port_intDec p h1 h2]

/-- C8: `validate_port` returns `(true, port)` for the decimal string of
every integer in [1024, 65535]; it returns `(false, none)` — without any
exception escaping — for 1023, 65536, the empty string, a non-numeric
string, every parseable but out-of-range value, and every unparseable
string. -/
theorem claim_validate_port_spec :
    (∀ p : Int, 1024 ≤ p → p ≤ 65535 →
      validate_port (String.mk (intDec p)) = (true, some p)) ∧
    validate_port "1023" = (false, none) ∧
    validate_port "65536" = (false, none) ∧
    validate_port "" = (false, none) ∧
    validate_port "abc" = (false, none) ∧
    (∀ s : String, ∀ p : Int, pyParseInt s = some p → (p < 1024 ∨ 65535 < p) →
      validate_port s = (false, none)) ∧
    (∀ s : String, pyParseInt s = none → validate_port s = (false, none)) := by
  refine ⟨validate_port_intDec, by decide, by decide, by decide, by decide, ?_, ?_⟩
  · intro s p hp hrange
    unfold validate_port
    rw [hp]
    show (if 1024 ≤ p ∧ p ≤ 65535 then ((true : Bool), some p)
      else ((false : Bool), none)) = (false, none)
    rw [if_neg (by omega)]
  · intro s hp
    unfold validate_port
    rw [hp]

/-- C8 witness: the accepted range at 2048, whose canonical decimal string
is the literal "2048". -/
theorem claim_validate_port_check :
    validate_port (String.mk (intDec 2048)) = (true, some 2048) ∧
    String.mk (intDec 2048) = "2048" :=
  ⟨claim_validate_port_spec.1 2048 (by decide) (by decide), by decide⟩

/-- C7 counterexample: the string `"'x'"` (a double-quoted single-quoted x)
is wrapped in a single matching pair of quote characters, and `clean_path`
strips exactly that outer pair — but a second application strips again, so
`clean_path` is NOT idempotent on such strings, refuting the claim. -/
theorem claim_clean_cex :
    clean_path (String.mk [dquote, squote, 'x', squote, dquote]) =
      String.mk [squote, 'x', squote] ∧
    clean_path (clean_path (String.mk [dquote, squote, 'x', squote, dquote])) ≠
      clean_path (String.mk [dquote, squote, 'x', squote, dquote]) := by decide

/-- C7 (amended): for every string wrapped in a single matching pair of
quote characters and/or surrounding whitespace whose inner content neither
begins nor ends with whitespace or a quote character, `clean_path` strips
exactly that one layer and nothing else, and is idempotent there; on
quote-wrapped strings the outer layer is stripped exactly for arbitrary
content, but idempotence requires the bare-ends condition. -/
theorem claim_clean_amended (q : Char) (w₁ w₂ t : List Char)
    (hq : isPyQuote q = true)
    (h1 : ∀ c ∈ w₁, isPySpace c = true) (h2 : ∀ c ∈ w₂, isPySpace c = true)
    (ht : bareEnds t = true) :
    clean_path (String.mk (w₁ ++ [q] ++ t ++ [q] ++ w₂)) = String.mk t ∧
    clean_path (String.mk (w₁ ++ t ++ w₂)) = String.mk t ∧
    clean_path (String.mk t) = String.mk t ∧
    clean_path (clean_path (String.mk (w₁ ++ [q] ++ t ++ [q] ++ w₂))) =
      clean_path (String.mk (w₁ ++ [q] ++ t ++ [q] ++ w₂)) := by
  have e1 : clean_path (String.mk (w₁ ++ [q] ++ t ++ [q] ++ w₂)) = String.mk t :=
    congrArg String.mk (cleanList_wrap q w₁ w₂ t hq h1 h2)
  have e3 : clean_path (String.mk t) = String.mk t :=
    congrArg String.mk (cleanList_bare t ht)
  refine ⟨e1, congrArg String.mk (cleanList_ws_wrap w₁ w₂ t h1 h2 ht), e3, ?_⟩
  rw [e1]
  exact e3

/-- C7 witness: the amended claim evaluated at a concrete single-quoted,
space-padded string. -/
theorem claim_clean_amended_check :
    clean_path (String.mk ([' '] ++ [squote] ++ ['a', 'b'] ++ [squote] ++ [' '])) =
      String.mk ['a', 'b'] ∧
    clean_path (String.mk ([' '] ++ ['a', 'b'] ++ [' '])) = String.mk ['a', 'b'] ∧
    clean_path (String.mk ['a', 'b']) = String.mk ['a', 'b'] ∧
    clean_path (clean_path (String.mk ([' '] ++ [squote] ++ ['a', 'b'] ++ [squote] ++ [' ']))) =
      clean_path (String.mk ([' '] ++ [squote] ++ ['a', 'b'] ++ [squote] ++ [' '])) :=
  claim_clean_amended squote [' '] [' '] ['a', 'b'] (by decide) (by decide) (by decide)
    (by decide)

/-- Concatenation of strings concatenates the underlying character lists. -/
theorem str_data_append (a b : String) : (a ++ b).data = a.data ++ b.data := by
  cases a
  cases b
  rfl

/-- A string is empty exactly when its character list is. -/
theorem data_eq_nil_iff (s : String) : s = "" ↔ s.data = [] := by
  cases s with
  | mk l =>
    constructor
    · intro h
      rw [show ("" : String) = String.mk [] from rfl] at h
      injection h
    · intro h
      have hl : l = [] := h
      subst hl
      rfl

/-- Appending a non-empty string on the right gives a non-empty string. -/
theorem append_ne_empty_right (a b : String) (hb : b ≠ "") : a ++ b ≠ "" := by
  intro h
  apply hb
  have hd := congrArg String.data h
  rw [str_data_append] at hd
  have hnil : a.data ++ b.data = [] := hd
  rw [data_eq_nil_iff]
  exact (List.append_eq_nil.mp hnil).2

/-- Joining onto a non-empty right component gives a non-empty path. -/
theorem pyJoin_ne_empty (a b : String) (hb : b ≠ "") : pyJoin a b ≠ "" := by
  unfold pyJoin
  split_ifs
  · exact hb
  · exact hb
  · exact append_ne_empty_right a b hb
  · exact append_ne_empty_right (a ++ "/") b hb

/-- Directory validation fails on every string that strips to the empty
string (in particular on blank strings). -/
theorem validate_strip_empty (fs : FS) (s : String) (h : pyStripStr s = "") :
    (validate_dir_path fs s).1 = false := by
  have hl : pyStrip s.data = [] := (data_eq_nil_iff (pyStripStr s)).mp h
  have hc : clean_path s = "" := by
    unfold clean_path cleanList
    by_cases hd : s.data = []
    · rw [if_pos hd]
    · rw [if_neg hd, hl]
      rfl
  unfold validate_dir_path
  rw [hc]
  rfl

/-- Successful directory validation forces a non-blank input. -/
theorem validate_true_strip_ne (fs : FS) (s : String)
    (h : (validate_dir_path fs s).1 = true) : pyStripStr s ≠ "" := by
  intro hs
  rw [validate_strip_empty fs s hs] at h
  exact absurd h (by simp)

/-- Successful directory validation forces a non-empty input. -/
theorem validate_true_ne_empty (fs : FS) (s : String)
    (h : (validate_dir_path fs s).1 = true) : s ≠ "" := by
  intro hs
  subst hs
  rw [show validate_dir_path fs "" = (false, "路径不能为空") from rfl] at h
  exact absurd h (by simp)

/-- The resolved output directory is never the empty string. -/
theorem resolved_output_dir_ne_empty (first od : String) :
    resolved_output_dir first od ≠ "" := by
  unfold resolved_output_dir
  split_ifs with h
  · exact pyJoin_ne_empty _ _ (by decide)
  · intro he
    apply h
    rw [he]
    rfl

/-- C1: with at least one valid input file, the assembled argument vector
is exactly, in order: the external executable path, the valid input paths,
`--output` with the resolved output directory (which is also the directory
created with parents if absent, carried in the first component); then
`--fonts` exactly when `font_dir` validates as a directory; then
`--subset-backend` exactly when the backend differs from `PyFontTools`;
then `--bin-path` exactly when `bin_path` is non-blank and validates as a
directory; then `--no-source-han-ellipsis` exactly when
`source_han_ellipsis` is false; then `--debug` exactly when `debug` is
true. -/
theorem claim_run_argument_vector (fs : FS) (input_paths : List String)
    (output_dir font_dir subset_backend bin_path : String)
    (source_han_ellipsis debug : Bool) (first : String) (rest : List String)
    (h : valid_inputs fs input_paths = first :: rest) :
    run_assfontsubset fs input_paths output_dir font_dir subset_backend bin_path
        source_han_ellipsis debug =
      Except.ok (resolved_output_dir first output_dir,
        ["./AssFontSubset.Console"] ++ (first :: rest)
        ++ ["--output", resolved_output_dir first output_dir]
        ++ (if (validate_dir_path fs font_dir).1 then
              ["--fonts", (validate_dir_path fs font_dir).2] else [])
        ++ (if subset_backend = "PyFontTools" then []
            else ["--subset-backend", subset_backend])
        ++ (if pyStripStr bin_path ≠ "" ∧ (validate_dir_path fs bin_path).1 = true then
              ["--bin-path", (validate_dir_path fs bin_path).2] else [])
        ++ (if source_han_ellipsis then [] else ["--no-source-han-ellipsis"])
        ++ (if debug then ["--debug"] else [])) := by
  have e1 : (if resolved_output_dir first output_dir = "" then ([] : List String)
      else ["--output", resolved_output_dir first output_dir]) =
      ["--output", resolved_output_dir first output_dir] :=
    if_neg (resolved_output_dir_ne_empty first output_dir)
  have e2 : (if font_dir = "" then ([] : List String)
      else if (validate_dir_path fs font_dir).1 then
        ["--fonts", (validate_dir_path fs font_dir).2] else []) =
      (if (validate_dir_path fs font_dir).1 then
        ["--fonts", (validate_dir_path fs font_dir).2] else []) := by
    by_cases hf : font_dir = ""
    · rw [if_pos hf, hf]
      simp [show validate_dir_path fs "" = (false, "路径不能为空") from rfl]
    · rw [if_neg hf]
  have e3 : (if bin_path = "" then ([] : List String)
      else if pyStripStr bin_path = "" then []
      else if (validate_dir_path fs bin_path).1 then
        ["--bin-path", (validate_dir_path fs bin_path).2] else []) =
      (if pyStripStr bin_path ≠ "" ∧ (validate_dir_path fs bin_path).1 = true then
        ["--bin-path", (validate_dir_path fs bin_path).2] else []) := by
    by_cases hb1 : bin_path = ""
    · rw [if_pos hb1, hb1]
      rw [if_neg (by simp [show pyStripStr "" = "" from rfl])]
    · rw [if_neg hb1]
      by_cases hb2 : pyStripStr bin_path = ""
      · rw [if_pos hb2, if_neg (by simp [hb2])]
      · rw [if_neg hb2]
        by_cases hv : (validate_dir_path fs bin_path).1 = true
        · rw [if_pos hv, if_pos ⟨hb2, hv⟩]
        · rw [if_neg hv, if_neg fun hcontra => hv hcontra.2]
  simp only [run_assfontsubset, h]
  rw [e1, e2, e3]

/-- C1 witness: a concrete run over the file system `fs1` with one valid
input, a blank output directory, a valid font directory, the non-default
backend, ellipsis handling off and debug on. -/
theorem claim_run_argument_vector_check :
    run_assfontsubset fs1 ["/a/x.ass"] "" "/f" "HarfBuzzSubset" "" false true =
      Except.ok ("/a/output",
        ["./AssFontSubset.Console", "/a/x.ass", "--output", "/a/output",
         "--fonts", "/f", "--subset-backend", "HarfBuzzSubset",
         "--no-source-han-ellipsis", "--debug"]) := by
  rw [claim_run_argument_vector fs1 ["/a/x.ass"] "" "/f" "HarfBuzzSubset" "" false true
    "/a/x.ass" [] (by decide)]
  rfl

/-- C5: `run` keeps exactly the cleaned input paths that end in `.ass`
case-insensitively and are regular files; when nothing survives —
in particular for the empty input list — it returns the user-facing
"no valid input files" report and assembles no command (no process is
spawned). -/
theorem claim_run_input_filter (fs : FS) (input_paths : List String)
    (output_dir font_dir subset_backend bin_path : String)
    (source_han_ellipsis debug : Bool) :
    (∀ p, p ∈ valid_inputs fs input_paths ↔
      ∃ q ∈ input_paths, clean_path q = p ∧
        pyEndsWith (pyLower p) ".ass" = true ∧ fs.isFile p = true) ∧
    (valid_inputs fs input_paths = [] →
      run_assfontsubset fs input_paths output_dir font_dir subset_backend bin_path
        source_han_ellipsis debug = Except.error "错误：没有有效的ASS文件路径") ∧
    run_assfontsubset fs [] output_dir font_dir subset_backend bin_path
      source_han_ellipsis debug = Except.error "错误：没有有效的ASS文件路径" := by
  refine ⟨?_, ?_, rfl⟩
  · intro p
    unfold valid_inputs
    rw [List.mem_filter]
    simp only [List.mem_map, Bool.and_eq_true]
    constructor
    · rintro ⟨⟨q, hq, rfl⟩, h1, h2⟩
      exact ⟨q, hq, rfl, h1, h2⟩
    · rintro ⟨q, hq, rfl, h1, h2⟩
      exact ⟨⟨q, hq, rfl⟩, h1, h2⟩
  · intro hempty
    unfold run_assfontsubset
    rw [hempty]

/-- C5 witness: an input list whose only entry has the wrong suffix yields
the failure report. -/
theorem claim_run_input_filter_check :
    run_assfontsubset fs1 ["/a/x.txt"] "" "" "PyFontTools" "" true false =
      Except.error "错误：没有有效的ASS文件路径" :=
  (claim_run_input_filter fs1 ["/a/x.txt"] "" "" "PyFontTools" "" true false).2.1
    (by decide)

/-- C6: `save_config` aborts with the validation error when the target
directory is invalid; a blank filename becomes
`assfont_config_<timestamp>.json`; a `.json` suffix is appended exactly
when missing (case-insensitively); on success the message contains the
final path and the document is written there; an I/O failure produces the
wrapped error message and nothing is recorded as written. -/
theorem claim_save_config_spec (fs : FS) (now save_dir filename : String)
    (config : ConfigDoc) :
    ((validate_dir_path fs save_dir).1 = false →
      save_config fs now save_dir filename config =
        ⟨false, (validate_dir_path fs save_dir).2, none⟩) ∧
    (pyStripStr filename = "" →
      final_filename now filename = "assfont_config_" ++ now ++ ".json") ∧
    (pyStripStr filename ≠ "" → pyEndsWith (pyLower filename) ".json" = false →
      final_filename now filename = filename ++ ".json") ∧
    (pyStripStr filename ≠ "" → pyEndsWith (pyLower filename) ".json" = true →
      final_filename now filename = filename) ∧
    ((validate_dir_path fs save_dir).1 = true →
      fs.writeError (pyJoin (validate_dir_path fs save_dir).2
        (final_filename now filename)) = none →
      save_config fs now save_dir filename config =
        ⟨true, "配置已成功保存到: " ++ pyJoin (validate_dir_path fs save_dir).2
            (final_filename now filename),
          some (pyJoin (validate_dir_path fs save_dir).2 (final_filename now filename),
            docToJVal config)⟩) ∧
    (∀ e, (validate_dir_path fs save_dir).1 = true →
      fs.writeError (pyJoin (validate_dir_path fs save_dir).2
        (final_filename now filename)) = some e →
      save_config fs now save_dir filename config =
        ⟨false, "保存配置文件出错: " ++ e, none⟩) := by
  refine ⟨?_, ?_, ?_, ?_, ?_, ?_⟩
  · intro hv
    simp [save_config, hv]
  · intro h
    unfold final_filename
    rw [if_pos h]
    rfl
  · intro h1 h2
    unfold final_filename
    rw [if_neg h1, if_neg (by simp [h2])]
  · intro h1 h2
    unfold final_filename
    rw [if_neg h1, if_pos h2]
  · intro hv hw
    simp [save_config, hv, hw]
  · intro e hv hw
    simp [save_config, hv, hw]

/-- C6 witness: saving the default document with a blank filename into a
valid directory on `fsD` succeeds with the synthesized timestamp name. -/
theorem claim_save_config_check :
    save_config fsD "20260101_120000" "/d" "" DEFAULT_CONFIG =
      ⟨true, "配置已成功保存到: " ++ pyJoin (validate_dir_path fsD "/d").2
          (final_filename "20260101_120000" ""),
        some (pyJoin (validate_dir_path fsD "/d").2 (final_filename "20260101_120000" ""),
          docToJVal DEFAULT_CONFIG)⟩ :=
  (claim_save_config_spec fsD "20260101_120000" "/d" "" DEFAULT_CONFIG).2.2.2.2.1
    (by decide) (by decide)

/-- C2: evaluation of `load_config` at a failing input. A config file whose
`font_dir` names a non-directory, and whose `input_paths` contains a
non-directory entry, stores the validator's error message `路径不是有效目录`
in both places — the `if validated:` guard is always true because
`validate_dir_path` returns the (non-empty) error message in the same tuple
slot as the resolved path — contradicting the claim that invalid entries
are stripped or replaced by the default. -/
theorem claim_load_stores_error_strings :
    load_config_from fs0
      (some (Except.ok (JVal.jobj
        [("font_dir", JVal.jstr "/no/such/dir"),
         ("input_paths", JVal.jarr [JVal.jstr "/no/such/file.ass"])]))) =
      ({ DEFAULT_CONFIG with
          font_dir := JVal.jstr "路径不是有效目录",
          input_paths := JVal.jarr [JVal.jstr "路径不是有效目录"] }, none) := rfl

/-- C3 counterexample: a file whose content parses as valid JSON but is not
an object (here the array `[1, 2]`) makes `load_config` return the
all-defaults document with NO error (`none`), refuting the claim that such
content yields a descriptive non-none error. -/
theorem claim_load_nonobject_cex :
    load_config_from fs0 (some (Except.ok (JVal.jarr [JVal.jnum 1, JVal.jnum 2]))) =
      (DEFAULT_CONFIG, none) := rfl

/-- C3 (amended): for an existing config file, unparseable content yields
the all-defaults document with a descriptive non-none wrapped error, while
content that parses as valid JSON but is not an object yields the
all-defaults document with no error; in neither case is any of the file's
content applied. -/
theorem claim_load_corrupt_amended (fs : FS) (e : String) (v : JVal)
    (hv : JVal.isObj v = false) :
    load_config_from fs (some (Except.error e)) =
      (DEFAULT_CONFIG, some ("加载配置文件出错: " ++ e)) ∧
    load_config_from fs (some (Except.ok v)) = (DEFAULT_CONFIG, none) := by
  refine ⟨rfl, ?_⟩
  cases v <;> first
    | rfl
    | exact absurd hv (by simp [JVal.isObj])

/-- C3 witness: the amended claim at a concrete parse error and a concrete
non-object JSON value. -/
theorem claim_load_corrupt_amended_check :
    load_config_from fs0 (some (Except.error "boom")) =
      (DEFAULT_CONFIG, some ("加载配置文件出错: " ++ "boom")) ∧
    load_config_from fs0 (some (Except.ok (JVal.jnum 3))) = (DEFAULT_CONFIG, none) :=
  claim_load_corrupt_amended fs0 "boom" (JVal.jnum 3) (by decide)

/-- C4: evaluation at the failing input. Saving the all-defaults document
writes `docToJVal DEFAULT_CONFIG`; reloading that very value turns
`font_dir` from `""` into the validator error message `路径不能为空`, so the
save/load round trip is not a no-op. (The second half of the claim —
unrecognized keys ignored, missing keys defaulted — does hold, as the last
conjunct shows.) -/
theorem claim_roundtrip_default_breaks :
    (save_config fsD "20260101_000000" "/d" "c.json" DEFAULT_CONFIG).written =
      some ("/d/c.json", docToJVal DEFAULT_CONFIG) ∧
    (load_config_from fs0 (some (Except.ok (docToJVal DEFAULT_CONFIG)))).1.font_dir =
      JVal.jstr "路径不能为空" ∧
    (load_config_from fs0 (some (Except.ok (docToJVal DEFAULT_CONFIG)))).1 ≠
      DEFAULT_CONFIG ∧
    load_config_from fs0 (some (Except.ok (JVal.jobj [("unknown_key", JVal.jnum 5)]))) =
      (DEFAULT_CONFIG, none) := by
  refine ⟨rfl, rfl, ?_, rfl⟩
  intro h
  have h2 := congrArg ConfigDoc.font_dir h
  rw [show (load_config_from fs0 (some (Except.ok (docToJVal DEFAULT_CONFIG)))).1.font_dir =
        JVal.jstr "路径不能为空" from rfl] at h2
  rw [show DEFAULT_CONFIG.font_dir = JVal.jstr "" from rfl] at h2
  injection h2 with h3
  exact absurd h3 (by decide)

/-- C10: when the recognized key `input_paths` carries a non-list value,
`load_config` copies that value into the returned document verbatim — no
element-wise validation and no fallback to the default — both at the level
of a single merge step (`applyKey`) and of a whole loaded file. -/
theorem claim_input_paths_nonlist (fs : FS) (doc : ConfigDoc) (v : JVal)
    (hv : JVal.isArr v = false) :
    applyKey fs doc "input_paths" v = Except.ok { doc with input_paths := v } ∧
    load_config_from fs (some (Except.ok (JVal.jobj [("input_paths", v)]))) =
      ({ DEFAULT_CONFIG with input_paths := v }, none) := by
  cases v <;> first
    | exact ⟨rfl, rfl⟩
    | exact absurd hv (by simp [JVal.isArr])

/-- C10 witness: a config file in which `input_paths` is the string
`"oops"` loads with that string stored verbatim. -/
theorem claim_input_paths_nonlist_check :
    load_config_from fs0 (some (Except.ok (JVal.jobj [("input_paths", JVal.jstr "oops")]))) =
      ({ DEFAULT_CONFIG with input_paths := JVal.jstr "oops" }, none) :=
  (claim_input_paths_nonlist fs0 DEFAULT_CONFIG (JVal.jstr "oops") (by decide)).2

/-- C9: when the preferred port is already bound and `preferred + 1` is
free (with at least two attempts allowed and the candidate in the legal
port range), the launcher's probe fails at `preferred`, advances to
`preferred + 1`, starts the UI server there, calls the port persistence,
opens the browser, and terminates with `some (preferred + 1)`; the sidecar
file afterwards holds `preferred + 1`. -/
theorem claim_launcher_advances (busy : Int → Bool) (content : Option String)
    (M : Nat) (preferred : Int) (init : Option Int)
    (hpref : (get_port_from_file content).getD DEFAULT_PORT = preferred)
    (hM : 2 ≤ M) (hb0 : busy preferred = true) (hb1 : busy (preferred + 1) = false)
    (hlo : 1024 ≤ preferred + 1) (hhi : preferred + 1 ≤ 65535) :
    safe_launch busy content M =
      ([LEv.probeFail preferred, LEv.launchLocal (preferred + 1),
        LEv.savePort (preferred + 1), LEv.openBrowser (preferred + 1)],
       some (preferred + 1)) ∧
    sidecarAfter init
      [LEv.probeFail preferred, LEv.launchLocal (preferred + 1),
       LEv.savePort (preferred + 1), LEv.openBrowser (preferred + 1)] =
      some (preferred + 1) := by
  constructor
  · unfold safe_launch
    rw [hpref]
    rw [safe_launch_loop, dif_pos (show 0 < M by omega)]
    rw [safe_launch_loop, dif_pos (show 0 + 1 < M by omega)]
    simp [hb0, hb1, show ¬(0 = M - 1) by omega]
  · simp [sidecarAfter, save_port_valid (preferred + 1) hlo hhi]

/-- C9 witness: preferred port 7888 occupied and 7889 free, with the
default 20 attempts and an empty sidecar. -/
theorem claim_launcher_advances_check :
    safe_launch busyEx (some "7888") 20 =
      ([LEv.probeFail 7888, LEv.launchLocal 7889, LEv.savePort 7889,
        LEv.openBrowser 7889], some 7889) ∧
    sidecarAfter none
      [LEv.probeFail 7888, LEv.launchLocal 7889, LEv.savePort 7889,
       LEv.openBrowser 7889] = some 7889 := by
  have h := claim_launcher_advances busyEx (some "7888") 20 7888 none (by decide)
    (by omega) (by decide) (by decide) (by decide) (by decide)
  exact h

end AFS
